import Mathlib

/-!
Verification development for MsABON ("MS SQL API built on NodeJS").

The definitions below are a shallow embedding of the route/SQL generator
(`src/generator.js`, together with the trigger-aware generator variant
shipped in the repository) and of the connection supervisor in
`src/server.js`.  JavaScript strings become Lean `String`s, JS objects
become structures, request bodies and query maps become functions
`String → Option String`, and JS truthiness on strings / optional values
is modelled explicitly.  The SQL batches built from template literals are
modelled as lists of statement strings (template whitespace normalized);
each statement string is the exact concatenation the code performs.
-/

namespace MsABON

/-- Helper for JS `String.includes`: does `needle` occur at the head of the
second list? -/
def headMatches : List Char → List Char → Bool
  | [], _ => true
  | _ :: _, [] => false
  | a :: as, b :: bs => a == b && headMatches as bs

/-- Helper for JS `String.includes`: does `needle` occur anywhere in the
list? -/
def subIn (needle : List Char) : List Char → Bool
  | [] => headMatches needle []
  | b :: bs => headMatches needle (b :: bs) || subIn needle bs

/-- JS `hay.includes(needle)` on strings. -/
def strIncludes (hay needle : String) : Bool :=
  subIn needle.data hay.data

/-- JS `s.toLowerCase()` for the ASCII type names the generator compares,
modelled character by character so that it evaluates in the kernel. -/
def jsToLower (s : String) : String :=
  String.mk (s.data.map Char.toLower)

/-- JS truthiness of a nullable string: `null`/absent and the empty string
are falsy, any other string is truthy (projected to `some`). -/
def jsStr (o : Option String) : Option String :=
  match o with
  | some s => if s = "" then none else some s
  | none => none

/-- A catalog column row as returned by `getColumns`
(INFORMATION_SCHEMA.COLUMNS). `CHARACTER_MAXIMUM_LENGTH` is `none` when the
catalog reports NULL; SQL Server reports `-1` for `max`-typed columns. -/
structure Column where
  COLUMN_NAME : String
  DATA_TYPE : String
  IS_NULLABLE : String
  CHARACTER_MAXIMUM_LENGTH : Option Int
  deriving DecidableEq

/-- The `mssql` parameter-binding types used by the generator.
`NVarChar none` stands for `sql.NVarChar(sql.MAX)`. -/
inductive MssqlType where
  | NVarChar (len : Option Int)
  | Int
  | BigInt
  | Bit
  | Decimal (p s : Nat)
  | Float
  | DateTime
  deriving DecidableEq

/-- Embedding of `mapSqlTypeToMssqlType` (generator.js lines 4-19).
The JS guard `col.CHARACTER_MAXIMUM_LENGTH && col.CHARACTER_MAXIMUM_LENGTH > 0`
is truthiness (non-null, non-zero) conjoined with positivity, which for an
integer-or-null field is exactly "present and positive". -/
def mapSqlTypeToMssqlType (col : Column) : MssqlType :=
  let t := jsToLower col.DATA_TYPE
  if strIncludes t "char" || t == "text" || t == "ntext" then
    match col.CHARACTER_MAXIMUM_LENGTH with
    | some n => if 0 < n then MssqlType.NVarChar (some n) else MssqlType.NVarChar none
    | none => MssqlType.NVarChar none
  else if strIncludes t "int" then MssqlType.Int
  else if t == "bigint" then MssqlType.BigInt
  else if t == "bit" then MssqlType.Bit
  else if strIncludes t "decimal" || t == "numeric" then MssqlType.Decimal 18 4
  else if strIncludes t "float" || t == "real" then MssqlType.Float
  else if strIncludes t "date" || strIncludes t "time" then MssqlType.DateTime
  else if t == "uniqueidentifier" then MssqlType.NVarChar (some 50)
  else MssqlType.NVarChar none

/-- An OpenAPI property schema as produced by `toOpenApiType`. -/
structure OpenApiType where
  type : String
  format : Option String
  deriving DecidableEq

/-- Embedding of `toOpenApiType` (generator.js lines 21-29). -/
def toOpenApiType (col : Column) : OpenApiType :=
  let t := jsToLower col.DATA_TYPE
  if strIncludes t "int" then { type := "integer", format := none }
  else if t == "bigint" then { type := "integer", format := some "int64" }
  else if t == "bit" then { type := "boolean", format := none }
  else if strIncludes t "float" || t == "real" || strIncludes t "decimal" || t == "numeric" then
    { type := "number", format := none }
  else if strIncludes t "date" || strIncludes t "time" then
    { type := "string", format := some "date-time" }
  else { type := "string", format := none }

/-- A column whose base data type is exactly `bigint`. -/
def bigintCol : Column :=
  { COLUMN_NAME := "Big", DATA_TYPE := "bigint", IS_NULLABLE := "YES",
    CHARACTER_MAXIMUM_LENGTH := none }

/-- Claim C4: the claim says a `bigint` column gets the 64-bit integer
binding and document type `integer` with an `int64` format hint.  The code
disagrees: the substring check `t.includes('int')` precedes the exact
`t === 'bigint'` check, so `bigint` takes the 32-bit `sql.Int` branch and
the plain `integer` document type without a format hint; both `bigint`
branches in the source are unreachable. -/
theorem claim_C4_code_divergence :
    mapSqlTypeToMssqlType bigintCol = MssqlType.Int ∧
    mapSqlTypeToMssqlType bigintCol ≠ MssqlType.BigInt ∧
    toOpenApiType bigintCol = { type := "integer", format := none } ∧
    toOpenApiType bigintCol ≠ { type := "integer", format := some "int64" } := by
  decide

/-- The metadata record `meta` assembled per discovered object in
`setupDynamicRoutes` (trigger-aware generator):
`{ schema, table, columns, pk, pool, isView, hasTriggers, identity }`
(the connection pool is irrelevant here and omitted). -/
structure TableMeta where
  schema : String
  table : String
  columns : List Column
  pk : List String
  isView : Bool
  hasTriggers : Bool
  identity : Option String
  deriving DecidableEq

/-- JS `tableMeta.pk && tableMeta.pk[0]` as used all over `registerRoutes`:
the first primary-key column when present and truthy (non-empty). -/
def jsPkHead (meta : TableMeta) : Option String :=
  jsStr meta.pk.head?

/-- Embedding of `qName(schema, table)`. -/
def qNameStr (schema table : String) : String :=
  "[" ++ schema ++ "].[" ++ table ++ "]"

/-- HTTP methods the generator registers handlers for. -/
inductive Method where
  | get
  | post
  | put
  | delete
  deriving DecidableEq

/-- A registered route: method plus Express path template. -/
structure Route where
  method : Method
  path : String
  deriving DecidableEq

/-- The set of routes `registerRoutes(app, tableMeta, endpoint)` installs:
the list route always, and — guarded by `if (!isView && pk)` — the
get-by-key, create, update and delete routes. -/
def registerRoutes (meta : TableMeta) (endpoint : String) : List Route :=
  let base := "/" ++ endpoint ++ "/" ++ meta.table
  Route.mk Method.get base ::
    (if meta.isView then []
     else
       match jsPkHead meta with
       | some k =>
           [Route.mk Method.get (base ++ "/:" ++ k), Route.mk Method.post base,
            Route.mk Method.put (base ++ "/:" ++ k), Route.mk Method.delete (base ++ "/:" ++ k)]
       | none => [])

/-- Claim C5: a discovered View never gets a mutation route — every route
registered for a View is a GET, whatever its trigger/identity/PK metadata. -/
theorem claim_C5 (meta : TableMeta) (endpoint : String) (h : meta.isView = true) :
    ∀ r ∈ registerRoutes meta endpoint, r.method = Method.get := by
  intro r hr
  simp only [registerRoutes, h, if_pos rfl] at hr
  simp only [if_true, List.mem_cons, List.not_mem_nil, or_false] at hr
  subst hr
  rfl

/-- A view with a primary key, an enabled trigger and an identity column in
its metadata: none of that may produce mutation routes. -/
def exViewMeta : TableMeta :=
  { schema := "dbo", table := "ActiveUsers",
    columns := [{ COLUMN_NAME := "Id", DATA_TYPE := "int", IS_NULLABLE := "NO",
                  CHARACTER_MAXIMUM_LENGTH := none }],
    pk := ["Id"], isView := true, hasTriggers := true, identity := some "Id" }

/-- Witness for claim C5 at a concrete View. -/
theorem claim_C5_witness :
    exViewMeta.isView = true ∧
      ∀ r ∈ registerRoutes exViewMeta "api", r.method = Method.get :=
  ⟨rfl, claim_C5 exViewMeta "api" rfl⟩

/-- The four row-return strategies of the mutation state machine, as they
appear in the trigger-aware insert handler. -/
inductive InsertStrategy where
  | directOutput
  | identityReselect (idCol : String)
  | keyReselect (keyCol : String)
  | stagingTable
  deriving DecidableEq

/-- The branch taken by the CREATE handler for one request, from the
conditionals in the trigger-aware `registerRoutes`:
`if (tableMeta.hasTriggers) { if (tableMeta.identity) {...} else if
(tableMeta.pk && req.body[tableMeta.pk[0]] !== undefined) {...} else
{...} } else {...}`.  `body` is `req.body` as a partial map from column
name to supplied value.  Note the key-reselect test reads `req.body`, so
this decision is made inside the request handler, per request. -/
def insertStrategy (meta : TableMeta) (body : String → Option String) : InsertStrategy :=
  if meta.hasTriggers then
    match jsStr meta.identity with
    | some idCol => InsertStrategy.identityReselect idCol
    | none =>
        match meta.pk.head? with
        | some k =>
            if (body k).isSome then InsertStrategy.keyReselect k else InsertStrategy.stagingTable
        | none => InsertStrategy.stagingTable
  else InsertStrategy.directOutput

/-- Columns of the INSERT column list: those the request body supplies. -/
def insCols (meta : TableMeta) (body : String → Option String) : List Column :=
  meta.columns.filter fun c => (body c.COLUMN_NAME).isSome

/-- `cols.join(',')` of the CREATE handler. -/
def insColsSql (meta : TableMeta) (body : String → Option String) : String :=
  String.intercalate "," ((insCols meta body).map fun c => "[" ++ c.COLUMN_NAME ++ "]")

/-- `vals.join(',')` of the CREATE handler. -/
def insValsSql (meta : TableMeta) (body : String → Option String) : String :=
  String.intercalate "," ((insCols meta body).map fun c => "@" ++ c.COLUMN_NAME)

/-- The `outSelect` projection used by the staging-table fallback: the
identity column (if any) is re-expressed as `t.[c] + 0 AS [c]` so that the
`SELECT TOP 0 ... INTO #out` holder loses the identity property. -/
def outSelectSql (meta : TableMeta) : String :=
  String.intercalate ", " (meta.columns.map fun c =>
    if meta.identity == some c.COLUMN_NAME then
      "t.[" ++ c.COLUMN_NAME ++ "] + 0 AS [" ++ c.COLUMN_NAME ++ "]"
    else
      "t.[" ++ c.COLUMN_NAME ++ "]")

/-- The SQL batch the CREATE handler sends, one statement per list entry
(the source builds the same statements in one template literal; whitespace
normalized). -/
def insertBatch (meta : TableMeta) (body : String → Option String) : List String :=
  match insertStrategy meta body with
  | InsertStrategy.directOutput =>
      ["INSERT INTO " ++ qNameStr meta.schema meta.table ++ " (" ++ insColsSql meta body ++
        ") OUTPUT inserted.* VALUES (" ++ insValsSql meta body ++ ")"]
  | InsertStrategy.identityReselect idCol =>
      ["SET NOCOUNT ON",
       "INSERT INTO " ++ qNameStr meta.schema meta.table ++ " (" ++ insColsSql meta body ++
         ") VALUES (" ++ insValsSql meta body ++ ")",
       "DECLARE @id numeric(38,0) = SCOPE_IDENTITY()",
       "SELECT * FROM " ++ qNameStr meta.schema meta.table ++ " WHERE [" ++ idCol ++ "] = @id"]
  | InsertStrategy.keyReselect k =>
      ["SET NOCOUNT ON",
       "INSERT INTO " ++ qNameStr meta.schema meta.table ++ " (" ++ insColsSql meta body ++
         ") VALUES (" ++ insValsSql meta body ++ ")",
       "SELECT * FROM " ++ qNameStr meta.schema meta.table ++ " WHERE [" ++ k ++ "] = @" ++ k]
  | InsertStrategy.stagingTable =>
      ["SET NOCOUNT ON",
       "IF OBJECT_ID(\x27tempdb..#out\x27) IS NOT NULL DROP TABLE #out",
       "SELECT TOP 0 " ++ outSelectSql meta ++ " INTO #out FROM " ++
         qNameStr meta.schema meta.table ++ " AS t WHERE 1 = 0",
       "INSERT INTO " ++ qNameStr meta.schema meta.table ++ " (" ++ insColsSql meta body ++
         ") OUTPUT inserted.* INTO #out VALUES (" ++ insValsSql meta body ++ ")",
       "SELECT * FROM #out",
       "DROP TABLE #out"]

/-- A result row, as a list of column-name/value pairs. -/
abbrev Row := List (String × String)

/-- Semantics of the reselect statement `SELECT * FROM t WHERE [col] = @v`
over a table modelled as a list of rows. -/
def selectStarWhereEq (rows : List Row) (col v : String) : List Row :=
  rows.filter fun r => r.lookup col == some v

/-- Claim C2: for a table with an enabled trigger and an identity column,
the CREATE handler takes the identity-reselect branch: the batch is an
INSERT with no OUTPUT clause followed by a reselect of the row whose
identity column equals the freshly generated `SCOPE_IDENTITY()` value, and
any row that reselect returns carries that identity value. -/
theorem claim_C2 (meta : TableMeta) (body : String → Option String) (idCol : String)
    (ht : meta.hasTriggers = true) (hid : jsStr meta.identity = some idCol) :
    insertStrategy meta body = InsertStrategy.identityReselect idCol ∧
    insertBatch meta body =
      ["SET NOCOUNT ON",
       "INSERT INTO " ++ qNameStr meta.schema meta.table ++ " (" ++ insColsSql meta body ++
         ") VALUES (" ++ insValsSql meta body ++ ")",
       "DECLARE @id numeric(38,0) = SCOPE_IDENTITY()",
       "SELECT * FROM " ++ qNameStr meta.schema meta.table ++ " WHERE [" ++ idCol ++ "] = @id"] ∧
    ∀ (rows : List Row) (v : String) (r : Row),
      r ∈ selectStarWhereEq rows idCol v → r.lookup idCol = some v := by
  have hs : insertStrategy meta body = InsertStrategy.identityReselect idCol := by
    simp [insertStrategy, ht, hid]
  refine ⟨hs, ?_, ?_⟩
  · simp only [insertBatch, hs]
  · intro rows v r hr
    have := List.mem_filter.mp hr
    exact eq_of_beq this.2

/-- A table with an enabled trigger and identity column `Id`. -/
def exTrigIdMeta : TableMeta :=
  { schema := "dbo", table := "Orders",
    columns := [{ COLUMN_NAME := "Id", DATA_TYPE := "int", IS_NULLABLE := "NO",
                  CHARACTER_MAXIMUM_LENGTH := none },
                { COLUMN_NAME := "Name", DATA_TYPE := "nvarchar", IS_NULLABLE := "YES",
                  CHARACTER_MAXIMUM_LENGTH := some 100 }],
    pk := ["Id"], isView := false, hasTriggers := true, identity := some "Id" }

/-- A request body supplying only the `Name` column. -/
def exNameBody : String → Option String :=
  fun c => if c = "Name" then some "Ann" else none

/-- Witness for claim C2 at a concrete trigger-plus-identity table. -/
theorem claim_C2_witness :
    (exTrigIdMeta.hasTriggers = true ∧ jsStr exTrigIdMeta.identity = some "Id") ∧
      insertStrategy exTrigIdMeta exNameBody = InsertStrategy.identityReselect "Id" :=
  ⟨⟨rfl, rfl⟩, (claim_C2 exTrigIdMeta exNameBody "Id" rfl rfl).1⟩

/-- Whether the insert payload supplies a value for the first primary-key
column — the datum the key-reselect test `req.body[tableMeta.pk[0]] !==
undefined` reads on every insert request. -/
def insertBodyHasPk (meta : TableMeta) (body : String → Option String) : Bool :=
  match meta.pk.head? with
  | some k => (body k).isSome
  | none => false

/-- A table with an enabled trigger, a primary key and no identity column. -/
def exTrigNoIdMeta : TableMeta :=
  { schema := "dbo", table := "AuditLog",
    columns := [{ COLUMN_NAME := "Id", DATA_TYPE := "int", IS_NULLABLE := "NO",
                  CHARACTER_MAXIMUM_LENGTH := none },
                { COLUMN_NAME := "Msg", DATA_TYPE := "nvarchar", IS_NULLABLE := "YES",
                  CHARACTER_MAXIMUM_LENGTH := some 200 }],
    pk := ["Id"], isView := false, hasTriggers := true, identity := none }

/-- Counterexample to claim C1: on one and the same discovered table, two
insert requests take different mutation strategies — one supplying the
primary key takes key-reselect, one without it takes the staging-table
fallback — so the strategy is not a function only of
(hasEnabledTrigger, identity presence) fixed at discovery time; it is
re-decided per request from the payload. -/
theorem claim_C1_counterexample :
    insertStrategy exTrigNoIdMeta (fun c => if c = "Id" then some "7" else none) =
      InsertStrategy.keyReselect "Id" ∧
    insertStrategy exTrigNoIdMeta (fun _ => none) = InsertStrategy.stagingTable ∧
    insertStrategy exTrigNoIdMeta (fun c => if c = "Id" then some "7" else none) ≠
      insertStrategy exTrigNoIdMeta (fun _ => none) := by
  decide

/-- Claim C1 amended: the split between the no-trigger OUTPUT path and the
trigger-safe paths, and the choice of identity-reselect, are fixed by the
discovery-time metadata (hasEnabledTrigger, identity); but for an insert on
a trigger-bearing table without a usable identity the handler chooses
between key-reselect and the staging table per request, according to
whether the payload supplies the first primary-key column.  Hence the
insert strategy is a function of (hasEnabledTrigger, identity,
payload-supplies-key): two requests agreeing on that last datum get the
same strategy. -/
theorem claim_C1_amended (meta : TableMeta) (b1 b2 : String → Option String)
    (h : insertBodyHasPk meta b1 = insertBodyHasPk meta b2) :
    insertStrategy meta b1 = insertStrategy meta b2 ∧
    (meta.hasTriggers = false → insertStrategy meta b1 = InsertStrategy.directOutput) ∧
    (∀ idCol, meta.hasTriggers = true → jsStr meta.identity = some idCol →
      insertStrategy meta b1 = InsertStrategy.identityReselect idCol) := by
  refine ⟨?_, ?_, ?_⟩
  · unfold insertStrategy
    cases htr : meta.hasTriggers with
    | false => simp
    | true =>
        simp only [if_pos rfl, if_true]
        cases hident : jsStr meta.identity with
        | some idCol => rfl
        | none =>
            cases hhd : meta.pk.head? with
            | none => rfl
            | some k =>
                have hb : (b1 k).isSome = (b2 k).isSome := by
                  simpa [insertBodyHasPk, hhd] using h
                simp [hb]
  · intro hf
    simp [insertStrategy, hf]
  · intro idCol htr hident
    simp [insertStrategy, htr, hident]

/-- Witness for the amended claim C1: two identical-on-the-key bodies give
the same strategy. -/
theorem claim_C1_amended_witness :
    insertBodyHasPk exTrigNoIdMeta (fun _ => none) =
        insertBodyHasPk exTrigNoIdMeta (fun c => if c = "Msg" then some "x" else none) ∧
      insertStrategy exTrigNoIdMeta (fun _ => none) =
        insertStrategy exTrigNoIdMeta (fun c => if c = "Msg" then some "x" else none) :=
  ⟨by decide,
   (claim_C1_amended exTrigNoIdMeta (fun _ => none)
      (fun c => if c = "Msg" then some "x" else none) (by decide)).1⟩

/-- Events of the per-target connection supervisor
(`connectAndSetupWithRetry` and the `.then` hookup in `start`,
src/server.js): a failed connect attempt, a successful attempt merging the
discovered schemas into the shared `components.schemas`, and a rebuild of
`openApi.paths` via `buildPathsFromComponents`. -/
inductive SupEvent where
  | attemptFail
  | mergeSchemas
  | rebuildPaths
  deriving DecidableEq

/-- Events produced by the retry chain of `connectAndSetupWithRetry` for a
given sequence of attempt outcomes (`true` = connect + discovery succeed):
each failing attempt logs and schedules the next via `setTimeout`; the
first success runs `setupDynamicRoutes` and merges the schemas.  An empty
remainder models a target still waiting on its next retry. -/
def retryTrace : List Bool → List SupEvent
  | [] => []
  | true :: _ => [SupEvent.mergeSchemas]
  | false :: rest => SupEvent.attemptFail :: retryTrace rest

/-- Events for one target as driven by `start`:
`connectAndSetupWithRetry(app, components, c).then(() =>
buildPathsFromComponents())`.  `doAttempt` catches its own failure (it
schedules the retry and returns normally), so the awaited promise resolves
after the FIRST attempt either way and the `.then` rebuild runs at that
point; retry attempts scheduled through `setTimeout` run later with no
rebuild attached. -/
def startTrace : List Bool → List SupEvent
  | [] => []
  | true :: _ => [SupEvent.mergeSchemas, SupEvent.rebuildPaths]
  | false :: rest => SupEvent.attemptFail :: SupEvent.rebuildPaths :: retryTrace rest

/-- Does every schema merge get followed, later in the trace, by a rebuild
of the document paths? -/
def everyMergeRebuilt : List SupEvent → Bool
  | [] => true
  | SupEvent.mergeSchemas :: rest => rest.contains SupEvent.rebuildPaths && everyMergeRebuilt rest
  | _ :: rest => everyMergeRebuilt rest

/-- Claim C3: the claim says the ApiDocument paths are rebuilt after every
successful discovery merge, including one that happens on a retry.  The
code only rebuilds after the first attempt settles: when the first attempt
fails and the retry succeeds, the merge happens after the one rebuild and
the served document never picks up the newly registered objects. -/
theorem claim_C3_code_divergence :
    everyMergeRebuilt (startTrace [true]) = true ∧
    startTrace [false, true] =
      [SupEvent.attemptFail, SupEvent.rebuildPaths, SupEvent.mergeSchemas] ∧
    everyMergeRebuilt (startTrace [false, true]) = false := by
  decide

/-- JS `filter.replace(/^\^/, '')`: strip one leading caret. -/
def stripLeadCaret : List Char → List Char
  | [] => []
  | c :: rest => if c = '^' then rest else c :: rest

/-- JS `s.replace(/\$/, '')`: the regex is unanchored and non-global, so it
removes the FIRST dollar sign wherever it occurs. -/
def removeFirstDollar : List Char → List Char
  | [] => []
  | c :: rest => if c = '$' then rest else c :: removeFirstDollar rest

/-- Embedding of the filter-to-LIKE conversion in `setupDynamicRoutes`:
`filter.replace(/^\^/, '').replace(/\$/, '') + '%'`. -/
def toSqlLike (filter : String) : String :=
  String.mk (removeFirstDollar (stripLeadCaret filter.data)) ++ "%"

/-- Strip one trailing dollar sign only — what claim C6 says the code does. -/
def removeTrailDollar (s : List Char) : List Char :=
  match s.reverse with
  | '$' :: rest => rest.reverse
  | _ => s

/-- The conversion as claim C6 states it (spec words): strip a leading `^`
anchor and a trailing `$` anchor, leave `^`/`$` elsewhere untouched, then
append `%`. -/
def toSqlLikeClaimed (filter : String) : String :=
  String.mk (removeTrailDollar (stripLeadCaret filter.data)) ++ "%"

/-- Counterexample to claim C6: for the filter `a$b`, whose `$` is not a
trailing anchor, the claim says the `$` is left in the pattern (`a$b%`),
but the code removes the first `$` anywhere and produces `ab%`. -/
theorem claim_C6_counterexample :
    toSqlLike "a$b" = "ab%" ∧
    toSqlLikeClaimed "a$b" = "a$b%" ∧
    toSqlLike "a$b" ≠ toSqlLikeClaimed "a$b" := by
  decide

/-- Helper: removing the first dollar from `a ++ '$' :: b` when `a` is
dollar-free deletes exactly that occurrence. -/
theorem removeFirstDollar_append (a b : List Char) (ha : '$' ∉ a) :
    removeFirstDollar (a ++ '$' :: b) = a ++ b := by
  induction a with
  | nil => simp [removeFirstDollar]
  | cons c cs ih =>
      have hc : c ≠ '$' := fun h => ha (h ▸ List.mem_cons_self c cs)
      have hcs : '$' ∉ cs := fun h => ha (List.mem_cons_of_mem c h)
      simp [removeFirstDollar, hc, ih hcs]

/-- Claim C6 amended: the LIKE pattern is obtained by stripping one leading
`^` anchor, then removing the FIRST `$` found anywhere in the remainder —
not only a trailing one — and appending `%`; a non-leading `^` is left in
the pattern (nothing else touches `^`), and any later `$` characters
survive.  The two conjuncts cover the filter with and without a leading
caret, with an arbitrary (possibly non-trailing) first dollar position. -/
theorem claim_C6_amended (a b : List Char) (ha : '$' ∉ a) :
    toSqlLike (String.mk ('^' :: (a ++ '$' :: b))) = String.mk (a ++ b) ++ "%" ∧
    (a.head? ≠ some '^' → toSqlLike (String.mk (a ++ '$' :: b)) = String.mk (a ++ b) ++ "%") := by
  constructor
  · simp [toSqlLike, stripLeadCaret, removeFirstDollar_append a b ha]
  · intro hh
    cases a with
    | nil =>
        simp [toSqlLike, stripLeadCaret, removeFirstDollar]
    | cons c cs =>
        have hc : c ≠ '^' := fun h => hh (by simp [h])
        have hcd : c ≠ '$' := fun h =>
          ha (h ▸ List.mem_cons_self c cs)
        have hcs : '$' ∉ cs := fun h => ha (List.mem_cons_of_mem c h)
        simp [toSqlLike, stripLeadCaret, hc, removeFirstDollar, hcd,
          removeFirstDollar_append cs b hcs]

/-- Witness for the amended claim C6: `^MI$x` becomes `MIx%` and `MI$x`
(no leading caret) also becomes `MIx%`; the non-trailing dollar is the one
removed. -/
theorem claim_C6_amended_witness :
    ('$' ∉ ['M', 'I']) ∧
      toSqlLike (String.mk ('^' :: (['M', 'I'] ++ '$' :: ['x']))) =
        String.mk (['M', 'I'] ++ ['x']) ++ "%" :=
  ⟨by decide, (claim_C6_amended ['M', 'I'] ['x'] (by decide)).1⟩

/-- JS `s.toUpperCase()` for the `order` direction comparison. -/
def jsToUpper (s : String) : String :=
  String.mk (s.data.map Char.toUpper)

/-- JS `String.split('.')` helper over the character list, accumulating the
current fragment. -/
def splitOnDotAux : List Char → List Char → List (List Char)
  | [], acc => [acc.reverse]
  | c :: rest, acc =>
      if c = '.' then acc.reverse :: splitOnDotAux rest [] else splitOnDotAux rest (c :: acc)

/-- JS `String(q.order).split('.')`. -/
def jsSplitDot (s : String) : List String :=
  (splitOnDotAux s.data []).map String.mk

/-- Parsing of the `order` query parameter in the list handler:
`if (q.order) { const parts = String(q.order).split('.'); orderCol =
parts[0]; orderDir = (parts[1] && parts[1].toUpperCase() === 'DESC') ?
'DESC' : 'ASC'; }` — `none` models the case where `q.order` is absent or
falsy and `orderCol` stays undefined. -/
def parseOrder (order : Option String) : Option (String × String) :=
  match jsStr order with
  | none => none
  | some s =>
      let parts := jsSplitDot s
      let dir :=
        match parts[1]? with
        | some d => if jsToUpper d = "DESC" then "DESC" else "ASC"
        | none => "ASC"
      some (parts.headD "", dir)

/-- The object's column-name set (`columnNames` in the list handler). -/
def colNames (meta : TableMeta) : List String :=
  meta.columns.map fun c => c.COLUMN_NAME

/-- The fallback sort column: `orderCol = pkColName ||
tableMeta.columns[0].COLUMN_NAME; orderDir = 'ASC'`.  `none` models the
TypeError the handler would hit on an object with no columns at all. -/
def defaultOrder (meta : TableMeta) : Option (String × String) :=
  match jsPkHead meta with
  | some k => some (k, "ASC")
  | none =>
      match meta.columns.head? with
      | some c0 => some (c0.COLUMN_NAME, "ASC")
      | none => none

/-- The sort column/direction the list handler settles on:
`if (!orderCol || !columnNames.has(orderCol)) { orderCol = pkColName ||
tableMeta.columns[0].COLUMN_NAME; orderDir = 'ASC'; }`. -/
def chooseOrder (meta : TableMeta) (order : Option String) : Option (String × String) :=
  match parseOrder order with
  | some (c, d) => if c ≠ "" ∧ c ∈ colNames meta then some (c, d) else defaultOrder meta
  | none => defaultOrder meta

/-- `offset` after parsing and clamping: default `0`, negatives clamped to
`0` (`if (offset < 0) offset = 0`). -/
def clampOffset (op : Option Int) : Int :=
  let o := op.getD 0
  if o < 0 then 0 else o

/-- The pagination tail of the synthesized list SELECT, by the handler's
three-way branch on (limit, clamped offset). -/
def pagSuffix (limit offset : Int) : String :=
  if limit < 0 ∧ offset = 0 then ""
  else if limit < 0 ∧ 0 ≤ offset then " OFFSET @offset ROWS"
  else " OFFSET @offset ROWS FETCH NEXT @limit ROWS ONLY"

/-- `whereSql`: AND-joined equality predicates for the catalog columns the
query string supplies, empty when no known column is filtered. -/
def listWhereSql (meta : TableMeta) (query : String → Option String) : String :=
  let whereParts :=
    (meta.columns.filter fun c => (query c.COLUMN_NAME).isSome).map
      fun c => "[" ++ c.COLUMN_NAME ++ "] = @" ++ c.COLUMN_NAME
  if whereParts = [] then "" else "WHERE " ++ String.intercalate " AND " whereParts

/-- The list SELECT text once the sort column is settled; the three
branches mirror `if (limit < 0 && offset === 0) ... else if (limit < 0 &&
offset >= 0) ... else ...` of the handler. -/
def listSqlTextWith (meta : TableMeta) (query : String → Option String)
    (ocd : String × String) (lp op : Option Int) : String :=
  let limit := lp.getD (-1)
  let offset := clampOffset op
  let stem := "SELECT * FROM " ++ qNameStr meta.schema meta.table ++ " " ++
    listWhereSql meta query ++ " " ++ ("ORDER BY [" ++ ocd.1 ++ "] " ++ ocd.2)
  if limit < 0 ∧ offset = 0 then stem
  else if limit < 0 ∧ 0 ≤ offset then stem ++ " OFFSET @offset ROWS"
  else stem ++ " OFFSET @offset ROWS FETCH NEXT @limit ROWS ONLY"

/-- The full list-handler SQL synthesis: choose the sort column, then build
the SELECT; `none` models the no-columns TypeError. -/
def listSqlText (meta : TableMeta) (query : String → Option String)
    (order : Option String) (lp op : Option Int) : Option String :=
  (chooseOrder meta order).map fun p => listSqlTextWith meta query p lp op

/-- The sort choice always succeeds on an object with at least one column. -/
theorem chooseOrder_isSome (meta : TableMeta) (order : Option String)
    (h : meta.columns ≠ []) : ∃ p, chooseOrder meta order = some p := by
  have hdef : ∃ p, defaultOrder meta = some p := by
    unfold defaultOrder
    cases hj : jsPkHead meta with
    | some k => exact ⟨(k, "ASC"), rfl⟩
    | none =>
        cases hcs : meta.columns with
        | nil => exact absurd hcs h
        | cons c0 rest => exact ⟨(c0.COLUMN_NAME, "ASC"), by simp [hcs]⟩
  unfold chooseOrder
  cases hp : parseOrder order with
  | none => exact hdef
  | some cd =>
      obtain ⟨c, d⟩ := cd
      by_cases hc : c ≠ "" ∧ c ∈ colNames meta
      · exact ⟨(c, d), by simp [hc]⟩
      · simpa [hc] using hdef

/-- The synthesized list SELECT splits into a stem, the ORDER BY clause and
the pagination suffix. -/
theorem listSqlTextWith_decomp (meta : TableMeta) (query : String → Option String)
    (oc od : String) (lp op : Option Int) :
    listSqlTextWith meta query (oc, od) lp op =
      ("SELECT * FROM " ++ qNameStr meta.schema meta.table ++ " " ++
          listWhereSql meta query ++ " ") ++
        ("ORDER BY [" ++ oc ++ "] " ++ od) ++ pagSuffix (lp.getD (-1)) (clampOffset op) := by
  simp only [listSqlTextWith, pagSuffix]
  split_ifs with h1 h2
  · exact (String.append_empty _).symm
  · rfl
  · rfl

/-- The pagination suffix is absent exactly in the default situation. -/
theorem pagSuffix_empty_iff (limit offset : Int) :
    pagSuffix limit offset = "" ↔ limit < 0 ∧ offset = 0 := by
  unfold pagSuffix
  split_ifs with h1 h2
  · simp [h1]
  · constructor
    · intro hx; exact absurd hx (by decide)
    · intro hx; exact absurd hx h1
  · constructor
    · intro hx; exact absurd hx (by decide)
    · intro hx; exact absurd hx h1

/-- Claim C7: every synthesized list SELECT carries an ORDER BY clause; the
OFFSET/FETCH pagination tail is present exactly when an effective limit
`>= 0` or a positive offset was requested (with `limit < 0` and clamped
`offset = 0` no pagination clause is emitted); and `limit=-1&offset=0`
produces the same SQL as supplying no pagination parameters at all. -/
theorem claim_C7 (meta : TableMeta) (query : String → Option String)
    (order : Option String) (lp op : Option Int) (h : meta.columns ≠ []) :
    (∃ oc od stem, chooseOrder meta order = some (oc, od) ∧
        listSqlText meta query order lp op =
          some (stem ++ ("ORDER BY [" ++ oc ++ "] " ++ od) ++
            pagSuffix (lp.getD (-1)) (clampOffset op))) ∧
    (pagSuffix (lp.getD (-1)) (clampOffset op) = "" ↔
      lp.getD (-1) < 0 ∧ clampOffset op = 0) ∧
    listSqlText meta query order (some (-1)) (some 0) =
      listSqlText meta query order none none := by
  refine ⟨?_, pagSuffix_empty_iff _ _, ?_⟩
  · obtain ⟨⟨oc, od⟩, hp⟩ := chooseOrder_isSome meta order h
    exact ⟨oc, od,
      "SELECT * FROM " ++ qNameStr meta.schema meta.table ++ " " ++
        listWhereSql meta query ++ " ", hp,
      by simp [listSqlText, hp, listSqlTextWith_decomp]⟩
  · unfold listSqlText
    have : ∀ p : String × String,
        listSqlTextWith meta query p (some (-1)) (some 0) =
          listSqlTextWith meta query p none none := by
      intro p
      unfold listSqlTextWith clampOffset
      norm_num
    cases chooseOrder meta order with
    | none => rfl
    | some p => simp [this p]

/-- Witness for claim C7 at a concrete table and empty query. -/
theorem claim_C7_witness :
    exTrigIdMeta.columns ≠ [] ∧
      listSqlText exTrigIdMeta (fun _ => none) none (some (-1)) (some 0) =
        listSqlText exTrigIdMeta (fun _ => none) none none none :=
  ⟨by decide,
   (claim_C7 exTrigIdMeta (fun _ => none) none (some (-1)) (some 0) (by decide)).2.2⟩

/-- Claim C8: when the order parameter is absent or does not name one of
the object's columns, the handler orders by the primary-key column
ascending — or by the first column ascending when there is no usable
primary key — and the interpolated sort column is always one of the
object's catalog columns (given that the catalog's primary-key column is
among its columns). -/
theorem claim_C8 (meta : TableMeta) (order : Option String)
    (hcols : meta.columns ≠ [])
    (hpk : ∀ k, jsPkHead meta = some k → k ∈ colNames meta)
    (hu : ∀ c d, parseOrder order = some (c, d) → c = "" ∨ c ∉ colNames meta) :
    ∃ oc, chooseOrder meta order = some (oc, "ASC") ∧ oc ∈ colNames meta ∧
      (∀ k, jsPkHead meta = some k → oc = k) ∧
      (jsPkHead meta = none → (meta.columns.head?.map fun c => c.COLUMN_NAME) = some oc) := by
  have hdef : ∃ oc, defaultOrder meta = some (oc, "ASC") ∧ oc ∈ colNames meta ∧
      (∀ k, jsPkHead meta = some k → oc = k) ∧
      (jsPkHead meta = none → (meta.columns.head?.map fun c => c.COLUMN_NAME) = some oc) := by
    cases hj : jsPkHead meta with
    | some k =>
        refine ⟨k, ?_, hpk k hj, ?_, ?_⟩
        · simp [defaultOrder, hj]
        · intro k' hk'
          exact Option.some.inj hk'
        · intro hn
          exact absurd hn (by simp)
    | none =>
        cases hcs : meta.columns with
        | nil => exact absurd hcs hcols
        | cons c0 rest =>
            refine ⟨c0.COLUMN_NAME, ?_, ?_, ?_, ?_⟩
            · simp [defaultOrder, hj, hcs]
            · simp [colNames, hcs]
            · intro k' hk'
              exact absurd hk' (by simp)
            · intro _
              simp [hcs]
  cases hp : parseOrder order with
  | none => simpa [chooseOrder, hp] using hdef
  | some cd =>
      obtain ⟨c, d⟩ := cd
      have hcond : ¬(c ≠ "" ∧ c ∈ colNames meta) := by
        intro ⟨h1, h2⟩
        cases hu c d hp with
        | inl he => exact h1 he
        | inr hm => exact hm h2
      simpa [chooseOrder, hp, hcond] using hdef

/-- Witness for claim C8: `order=nope.desc` on a table whose columns are
`Id`, `Name` falls back to the primary key ascending. -/
theorem claim_C8_witness :
    (exTrigIdMeta.columns ≠ []) ∧
      ∃ oc, chooseOrder exTrigIdMeta (some "nope.desc") = some (oc, "ASC") ∧
        oc ∈ colNames exTrigIdMeta ∧
        (∀ k, jsPkHead exTrigIdMeta = some k → oc = k) ∧
        (jsPkHead exTrigIdMeta = none →
          (exTrigIdMeta.columns.head?.map fun c => c.COLUMN_NAME) = some oc) :=
  ⟨by decide,
   claim_C8 exTrigIdMeta (some "nope.desc") (by decide)
     (by
       intro k hk
       rw [show jsPkHead exTrigIdMeta = some "Id" from rfl] at hk
       rw [← Option.some.inj hk]
       decide)
     (by
       intro c d hcd
       rw [show parseOrder (some "nope.desc") = some ("nope", "DESC") from rfl] at hcd
       obtain ⟨h1, h2⟩ := Prod.mk.injEq .. ▸ Option.some.inj hcd
       right
       rw [← h1]
       decide)⟩

/-- Where a bound SQL parameter's value comes from in the update handler:
`request.input(col, ..., req.body[col])` for SET-clause columns,
`request.input(pk, ..., req.params[pk])` for the key. -/
inductive ParamSource where
  | fromBody (v : String)
  | fromPath (v : String)
  deriving DecidableEq

/-- Outcome of the UPDATE handler before any driver I/O: either the
zero-fields bad request (no SQL is sent) or the execution of a SQL batch
with its bound parameters. -/
inductive UpdateOutcome where
  | badRequest
  | execute (batch : List String) (params : List (String × ParamSource))
  deriving DecidableEq

/-- The columns entering the SET clause: the loop skips the primary-key
column (`if (col.COLUMN_NAME === pk) continue`) and takes those the body
supplies. -/
def updateSetCols (meta : TableMeta) (pk : String) (body : String → Option String) : List Column :=
  meta.columns.filter fun c => c.COLUMN_NAME != pk && (body c.COLUMN_NAME).isSome

/-- Names of the SET-clause columns. -/
def updateSetColumns (meta : TableMeta) (pk : String) (body : String → Option String) :
    List String :=
  (updateSetCols meta pk body).map fun c => c.COLUMN_NAME

/-- The `WHERE [pk] = @pk` clause both update branches interpolate. -/
def whereEqPk (pk : String) : String :=
  "WHERE [" ++ pk ++ "] = @" ++ pk

/-- The SQL batch of the UPDATE handler: with an enabled trigger, plain
UPDATE then reselect by key; without, a single UPDATE with OUTPUT clause
(statement list; the source emits the same statements in one template
literal). -/
def updateBatch (meta : TableMeta) (pk : String) (sets : List String) : List String :=
  if meta.hasTriggers then
    ["SET NOCOUNT ON",
     "UPDATE " ++ qNameStr meta.schema meta.table ++ " SET " ++
       String.intercalate ", " sets ++ " " ++ whereEqPk pk,
     "SELECT * FROM " ++ qNameStr meta.schema meta.table ++ " " ++ whereEqPk pk]
  else
    ["UPDATE " ++ qNameStr meta.schema meta.table ++ " SET " ++
       String.intercalate ", " sets ++ " OUTPUT inserted.* " ++ whereEqPk pk]

/-- The UPDATE-by-key handler up to its first driver call: collect SET
columns and their body-bound parameters, bind the key from the path
parameter, and return 400 when no updatable field was supplied — in that
case no SQL is executed (the handler returns before `request.query`).
`none` models the handler not being registered (no usable primary key). -/
def updateHandler (meta : TableMeta) (body : String → Option String) (pathKey : String) :
    Option UpdateOutcome :=
  match jsPkHead meta with
  | none => none
  | some pk =>
      let setCols := updateSetCols meta pk body
      let sets := setCols.map fun c => "[" ++ c.COLUMN_NAME ++ "] = @" ++ c.COLUMN_NAME
      let params :=
        (setCols.map fun c => (c.COLUMN_NAME, ParamSource.fromBody ((body c.COLUMN_NAME).getD ""))) ++
          [(pk, ParamSource.fromPath pathKey)]
      if sets = [] then some UpdateOutcome.badRequest
      else some (UpdateOutcome.execute (updateBatch meta pk sets) params)

/-- Claim C9: an update request whose body supplies no non-key field gets
the bad-request outcome, and no SQL batch is formed or executed for it. -/
theorem claim_C9 (meta : TableMeta) (body : String → Option String) (pathKey pk : String)
    (hpk : jsPkHead meta = some pk)
    (hempty : ∀ c ∈ meta.columns, c.COLUMN_NAME ≠ pk → body c.COLUMN_NAME = none) :
    updateHandler meta body pathKey = some UpdateOutcome.badRequest := by
  have hnil : updateSetCols meta pk body = [] := by
    unfold updateSetCols
    rw [List.filter_eq_nil_iff]
    intro c hc
    by_cases hcp : c.COLUMN_NAME = pk
    · simp [hcp]
    · simp [hcp, hempty c hc hcp]
  simp [updateHandler, hpk, hnil]

/-- A no-trigger table with key `Id` and one data column. -/
def exPlainMeta : TableMeta :=
  { schema := "hr", table := "Employees",
    columns := [{ COLUMN_NAME := "Id", DATA_TYPE := "int", IS_NULLABLE := "NO",
                  CHARACTER_MAXIMUM_LENGTH := none },
                { COLUMN_NAME := "Name", DATA_TYPE := "nvarchar", IS_NULLABLE := "YES",
                  CHARACTER_MAXIMUM_LENGTH := some 100 }],
    pk := ["Id"], isView := false, hasTriggers := false, identity := some "Id" }

/-- Witness for claim C9: a body supplying only the key column (no
updatable field) yields the bad-request outcome. -/
theorem claim_C9_witness :
    (jsPkHead exPlainMeta = some "Id" ∧
      ∀ c ∈ exPlainMeta.columns, c.COLUMN_NAME ≠ "Id" → (fun f => if f = "Id" then some "3" else none) c.COLUMN_NAME = none) ∧
      updateHandler exPlainMeta (fun f => if f = "Id" then some "3" else none) "3" =
        some UpdateOutcome.badRequest :=
  ⟨⟨rfl, by decide⟩,
   claim_C9 exPlainMeta (fun f => if f = "Id" then some "3" else none) "3" "Id" rfl (by decide)⟩

/-- Every SET-clause column differs from the primary-key column — the loop
skips it before looking at the body. -/
theorem updateSetCols_ne_pk (meta : TableMeta) (pk : String) (body : String → Option String) :
    ∀ c ∈ updateSetCols meta pk body, c.COLUMN_NAME ≠ pk := by
  intro c hc
  have h2 := (List.mem_filter.mp hc).2
  simp only [Bool.and_eq_true, bne_iff_ne] at h2
  exact h2.1

/-- Claim C10: the primary-key column never appears among the SET-clause
columns of a synthesized UPDATE, even when the body supplies it; among the
bound parameters, the one named after the key always carries the path
parameter's value (never the body's); and every statement of the executed
batch other than `SET NOCOUNT ON` ends in `WHERE [pk] = @pk`, so the row
is addressed only by the path key. -/
theorem claim_C10 (meta : TableMeta) (body : String → Option String) (pathKey pk : String)
    (hpk : jsPkHead meta = some pk) :
    pk ∉ updateSetColumns meta pk body ∧
    ∀ batch params, updateHandler meta body pathKey = some (UpdateOutcome.execute batch params) →
      (∀ nv ∈ params, nv.1 = pk → nv.2 = ParamSource.fromPath pathKey) ∧
      ∀ s ∈ batch, s = "SET NOCOUNT ON" ∨ ∃ pre, s = pre ++ whereEqPk pk := by
  constructor
  · intro hmem
    obtain ⟨c, hc, hcn⟩ := List.mem_map.mp (by simpa [updateSetColumns] using hmem)
    exact updateSetCols_ne_pk meta pk body c hc hcn
  · intro batch params hexec
    simp only [updateHandler, hpk] at hexec
    by_cases hnil : updateSetCols meta pk body = []
    · simp [hnil] at hexec
    · have hsets :
          ¬((updateSetCols meta pk body).map
              (fun c => "[" ++ c.COLUMN_NAME ++ "] = @" ++ c.COLUMN_NAME) = []) := by
        simpa using hnil
      rw [if_neg hsets] at hexec
      obtain ⟨hbatch, hparams⟩ := UpdateOutcome.execute.inj (Option.some.inj hexec)
      constructor
      · intro nv hnv hname
        rw [← hparams] at hnv
        rcases List.mem_append.mp hnv with hl | hr
        · obtain ⟨c, hc, hcv⟩ := List.mem_map.mp hl
          have hne := updateSetCols_ne_pk meta pk body c hc
          rw [← hcv] at hname
          exact absurd hname hne
        · rw [List.mem_singleton.mp hr]
      · intro s hs
        rw [← hbatch] at hs
        unfold updateBatch at hs
        by_cases htr : meta.hasTriggers = true
        · rw [if_pos htr] at hs
          simp only [List.mem_cons, List.not_mem_nil, or_false] at hs
          rcases hs with h | h | h
          · exact Or.inl h
          · exact Or.inr ⟨_, h⟩
          · exact Or.inr ⟨_, h⟩
        · rw [if_neg htr] at hs
          simp only [List.mem_cons, List.not_mem_nil, or_false] at hs
          exact Or.inr ⟨_, hs⟩

/-- Witness for claim C10: body supplies both the key and a data column;
the key stays out of the SET clause. -/
theorem claim_C10_witness :
    jsPkHead exPlainMeta = some "Id" ∧
      "Id" ∉ updateSetColumns exPlainMeta "Id"
        (fun f => if f = "Id" then some "9" else some "Bob") :=
  ⟨rfl,
   (claim_C10 exPlainMeta (fun f => if f = "Id" then some "9" else some "Bob") "4" "Id" rfl).1⟩

end MsABON
